import Mathlib

/-!
Verification of the kinematic-tree construction engine of hpp-model-urdf
(src/urdf/parser.cc), as a shallow embedding over an abstract linear
ordered field `K` standing for the C++ `double` arithmetic.  Concrete
evaluations instantiate `K := ℚ`.

The embedding follows `parser.cc` function by function:
frame normalization (`normalizeFrameOrientation`), pose resolution
(`getPoseInReferenceFrame`), the joint factory (`create*Joint`), tree
assembly (`connectJoints` / `getChildrenJoint`), body and inertia
attachment (`addBodiesToJoints` / `addSolidComponentToJoint`), actuated
joint collection (`actuatedJoints`), the anatomy resolution
(`findSpecialJoints` / `setSpecialJoints` / `fillGaze` /
`fillHandsAndFeet`) and the whole `parseStream` pipeline.

Irrational real operations of the source (square roots in
`vector3d::normalize`, pi in `setFreeFlyerBounds`) are abstracted into a
`RealParams` record holding a square-root function and a value for pi,
so that every definition stays computable over `ℚ`.  Undefined behavior
of the C++ source (dereferencing a null pointer or a past-the-end map
iterator, unbounded recursion) is modelled by the `Outcome.crash`
constructor and, for recursion, an explicit fuel argument.
-/

namespace HppModelUrdf

variable {K : Type} [LinearOrderedField K]

/-- A 3-vector, as `vector3d` of the source. -/
abbrev Vec3 (K : Type) := Fin 3 → K

/-- A 3 by 3 matrix, as `matrix3d` of the source. -/
abbrev Mat3 (K : Type) := Matrix (Fin 3) (Fin 3) K

/-- A 4 by 4 homogeneous matrix, as `CkitMat4` / `matrix4d` of the source. -/
abbrev Mat4 (K : Type) := Matrix (Fin 4) (Fin 4) K

/-- Dot product of two 3-vectors. -/
def dot3 (a b : Vec3 K) : K := a 0 * b 0 + a 1 * b 1 + a 2 * b 2

/-- Cross product of two 3-vectors, the `operator^` of `vector3d`. -/
def cross3 (a b : Vec3 K) : Vec3 K :=
  ![a 1 * b 2 - a 2 * b 1, a 2 * b 0 - a 0 * b 2, a 0 * b 1 - a 1 * b 0]

/-- Squared Euclidean norm of a 3-vector. -/
def normSq3 (a : Vec3 K) : K := dot3 a a

/-- Abstract stand-ins for the irrational real operations used by the
source: `sq` models the square root used by `vector3d::normalize`, and
`piv` models `M_PI`. -/
structure RealParams (K : Type) where
  sq : K → K
  piv : K

/-- The normalization `x.normalize ()` of `vector3d`: divide by the norm
(the norm being `sq` applied to the squared norm). -/
def vecNormalize (sq : K → K) (v : Vec3 K) : Vec3 K :=
  fun i => v i / sq (normSq3 v)

/-- The loop of `normalizeFrameOrientation` (parser.cc:177-180) selecting
the index of the smallest-magnitude component of the normalized axis;
ties keep the earlier index because the comparison is strict. -/
def smallestComponent (x : Vec3 K) : Fin 3 :=
  let s1 : Fin 3 := if |x 1| < |x 0| then 1 else 0
  if |x 2| < |x s1| then 2 else s1

/-- The auxiliary basis vector `y` right after `y[smallestComponent] = 1.`
(parser.cc:174-182). -/
def frameY0 (x : Vec3 K) : Vec3 K :=
  fun i => if i = smallestComponent x then 1 else 0

/-- The third column `z = x ^ y` of parser.cc:183. -/
def frameZ (x : Vec3 K) : Vec3 K := cross3 x (frameY0 x)

/-- The second column `y = z ^ x` of parser.cc:184. -/
def frameY (x : Vec3 K) : Vec3 K := cross3 (frameZ x) x

/-- The 3 by 3 block written by `normalizeFrameOrientation`
(parser.cc:187-192) for an already normalized axis `x`: columns are
`x`, `frameY x` and `frameZ x`. -/
def normalizeFrameOrientationOfUnit (x : Vec3 K) : Mat3 K :=
  !![x 0, frameY x 0, frameZ x 0;
     x 1, frameY x 1, frameZ x 1;
     x 2, frameY x 2, frameZ x 2]

/-- Column `j` of a 3 by 3 matrix. -/
def col3 (M : Mat3 K) (j : Fin 3) : Vec3 K := fun i => M i j

/-- Embedding of a 3 by 3 rotation block into a homogeneous 4 by 4 matrix
whose remaining entries are those of the identity.  This is both the
`result.identity ()` initialisation of `normalizeFrameOrientation` and
the `inertiaMatrixTransform.identity ()` pattern of `addBodiesToJoints`. -/
def mat4ofRot (R : Mat3 K) : Mat4 K :=
  !![R 0 0, R 0 1, R 0 2, 0;
     R 1 0, R 1 1, R 1 2, 0;
     R 2 0, R 2 1, R 2 2, 0;
     0, 0, 0, 1]

/-- Extraction of the 3 by 3 block of a homogeneous matrix, as the loops
copying `inertiaMatrixTransform(i, j)` back into `inertiaMatrix(i, j)`. -/
def mat3ofMat4 (M : Mat4 K) : Mat3 K :=
  !![M 0 0, M 0 1, M 0 2;
     M 1 0, M 1 1, M 1 2;
     M 2 0, M 2 1, M 2 2]

section FrameLemmas

/-- A vector is orthogonal to a cross product having it as left factor. -/
theorem dot3_self_cross (a b : Vec3 K) : dot3 a (cross3 a b) = 0 := by
  simp only [dot3, cross3, Matrix.cons_val_zero, Matrix.cons_val_one,
    Matrix.cons_val_two, Matrix.head_cons, Matrix.tail_cons]
  ring

/-- A vector is orthogonal to a cross product having it as right factor. -/
theorem dot3_cross_right (a b : Vec3 K) : dot3 a (cross3 b a) = 0 := by
  simp only [dot3, cross3, Matrix.cons_val_zero, Matrix.cons_val_one,
    Matrix.cons_val_two, Matrix.head_cons, Matrix.tail_cons]
  ring

/-- A cross product is orthogonal to its own left factor. -/
theorem dot3_cross_left (a b : Vec3 K) : dot3 (cross3 a b) a = 0 := by
  simp only [dot3, cross3, Matrix.cons_val_zero, Matrix.cons_val_one,
    Matrix.cons_val_two, Matrix.head_cons, Matrix.tail_cons]
  ring

/-- Column 0 of the normalized frame is the (already normalized) axis. -/
theorem frame_col0 (x : Vec3 K) :
    col3 (normalizeFrameOrientationOfUnit x) 0 = x := by
  funext i
  fin_cases i <;> simp [col3, normalizeFrameOrientationOfUnit]

/-- Column 1 of the normalized frame is `frameY x`. -/
theorem frame_col1 (x : Vec3 K) :
    col3 (normalizeFrameOrientationOfUnit x) 1 = frameY x := by
  funext i
  fin_cases i <;> simp [col3, normalizeFrameOrientationOfUnit]

/-- Column 2 of the normalized frame is `frameZ x`. -/
theorem frame_col2 (x : Vec3 K) :
    col3 (normalizeFrameOrientationOfUnit x) 2 = frameZ x := by
  funext i
  fin_cases i <;> simp [col3, normalizeFrameOrientationOfUnit]

/-- The three columns produced by the frame normalizer are pairwise
orthogonal, for any input vector. -/
theorem frame_columns_orthogonal (x : Vec3 K) :
    dot3 (col3 (normalizeFrameOrientationOfUnit x) 0)
      (col3 (normalizeFrameOrientationOfUnit x) 1) = 0
    ∧ dot3 (col3 (normalizeFrameOrientationOfUnit x) 0)
      (col3 (normalizeFrameOrientationOfUnit x) 2) = 0
    ∧ dot3 (col3 (normalizeFrameOrientationOfUnit x) 1)
      (col3 (normalizeFrameOrientationOfUnit x) 2) = 0 := by
  rw [frame_col0, frame_col1, frame_col2]
  exact ⟨dot3_cross_right x (frameZ x), dot3_self_cross x (frameY0 x),
    dot3_cross_left (frameZ x) x⟩

end FrameLemmas

/-- The joint kinds of the input graph, `urdf::Joint::type`. -/
inductive UrdfJointType
  | UNKNOWN
  | REVOLUTE
  | CONTINUOUS
  | PRISMATIC
  | FLOATING
  | PLANAR
  | FIXED
deriving DecidableEq

/-- Joint limits block of the input graph (`urdf::JointLimits`). -/
structure JointLimits (K : Type) where
  lower : K
  upper : K
  effort : K
  velocity : K
deriving DecidableEq

/-- A pose of the input graph (`urdf::Pose`): a position and a rotation
quaternion (x, y, z, w). -/
structure UrdfPose (K : Type) where
  px : K
  py : K
  pz : K
  qx : K
  qy : K
  qz : K
  qw : K
deriving DecidableEq

/-- The identity pose (zero translation, identity quaternion). -/
def idPose : UrdfPose K := ⟨0, 0, 0, 0, 0, 0, 1⟩

/-- A pure-translation pose. -/
def translPose (x y z : K) : UrdfPose K := ⟨x, y, z, 0, 0, 0, 1⟩

/-- A joint of the immutable input graph (`urdf::Joint`).  Links are
referred to by name; the C++ structure holds shared pointers instead. -/
structure UrdfJoint (K : Type) where
  jtype : UrdfJointType
  axis : Vec3 K
  ptj : UrdfPose K
  parent_link_name : String
  child_link_name : String
  limits : Option (JointLimits K)

/-- Inertial block of a link (`urdf::Inertial`): center-of-mass origin,
mass and the six independent entries of the symmetric inertia tensor. -/
structure UrdfInertial (K : Type) where
  ox : K
  oy : K
  oz : K
  mass : K
  ixx : K
  ixy : K
  ixz : K
  iyy : K
  iyz : K
  izz : K

/-- Geometry descriptor of a link (`urdf::Geometry` subclasses). -/
inductive UrdfGeometry (K : Type)
  | mesh (filename : String) (scaleX scaleY scaleZ : K)
  | cylinder (radius length : K)
  | box (dx dy dz : K)
  | sphere (radius : K)

/-- Visual or collision block of a link (`urdf::Visual` /
`urdf::Collision`): an origin pose and a geometry. -/
structure UrdfVisual (K : Type) where
  origin : UrdfPose K
  geometry : UrdfGeometry K

/-- A link of the immutable input graph (`urdf::Link`).  The parent joint
and child joints are referred to by name. -/
structure UrdfLink (K : Type) where
  parent_joint : Option String
  child_joints : List String
  inertial : Option (UrdfInertial K)
  visual : Option (UrdfVisual K)
  collision : Option (UrdfVisual K)

/-- The decoded input graph (`urdf::Model`), the given immutable input of
the engine.  `joints` and `links` model the `std::map` members
`joints_` and `links_`: association lists kept in increasing key order,
which is the iteration order of the C++ maps. -/
structure UrdfModel (K : Type) where
  joints : List (String × UrdfJoint K)
  links : List (String × UrdfLink K)

/-- Lookup of `model_.getJoint`. -/
def UrdfModel.getJoint (m : UrdfModel K) (name : String) :
    Option (UrdfJoint K) :=
  List.lookup name m.joints

/-- Lookup of `model_.getLink`. -/
def UrdfModel.getLink (m : UrdfModel K) (name : String) :
    Option (UrdfLink K) :=
  List.lookup name m.links

/-- Lookup of `model_.getRoot`: the root link of the decoded graph, the
unique link without a parent joint. -/
def UrdfModel.getRoot (m : UrdfModel K) : Option (String × UrdfLink K) :=
  m.links.find? (fun e => e.2.parent_joint.isNone)

/-- Embedding of `Parser::poseToMatrix` (parser.cc:1100-1124): the
rotation block is the bullet `btMatrix3x3` built from the quaternion
(x, y, z, w) with `d = length2`, `s = 2 / d`, and the translation goes in
the last column. -/
def poseToMatrix (p : UrdfPose K) : Mat4 K :=
  let d := p.qx * p.qx + p.qy * p.qy + p.qz * p.qz + p.qw * p.qw
  let s := 2 / d
  let xs := p.qx * s
  let ys := p.qy * s
  let zs := p.qz * s
  let wx := p.qw * xs
  let wy := p.qw * ys
  let wz := p.qw * zs
  let xx := p.qx * xs
  let xy := p.qx * ys
  let xz := p.qx * zs
  let yy := p.qy * ys
  let yz := p.qy * zs
  let zz := p.qz * zs
  !![1 - (yy + zz), xy - wz, xz + wy, p.px;
     xy + wz, 1 - (xx + zz), yz - wx, p.py;
     xz - wy, yz + wx, 1 - (xx + yy), p.pz;
     0, 0, 0, 1]

/-- Embedding of the free function `normalizeFrameOrientation`
(parser.cc:155-195).  A null joint pointer yields the identity; otherwise
the axis is normalized (through the abstract square root of `rp`) and the
Gram-Schmidt-style columns are embedded into an otherwise-identity 4 by 4
matrix. -/
def normalizeFrameOrientation (rp : RealParams K) (j : Option (UrdfJoint K)) :
    Mat4 K :=
  match j with
  | none => 1
  | some joint =>
      mat4ofRot (normalizeFrameOrientationOfUnit (vecNormalize rp.sq joint.axis))

/-- Concrete square-root stand-in for `ℚ` evaluations: correct on the
perfect squares used by the concrete models of this file. -/
def sqRat (q : ℚ) : ℚ :=
  if q = 0 then 0 else if q = 1 then 1 else if q = 4 then 2 else
  if q = 9 then 3 else q

/-- Concrete real-operation parameters for `ℚ` evaluations. -/
def rpQ : RealParams ℚ := ⟨sqRat, 355 / 113⟩

/-- Extracting the rotation block of the homogeneous embedding gives the
original 3 by 3 matrix back. -/
theorem mat3of_mat4ofRot (R : Mat3 K) : mat3ofMat4 (mat4ofRot R) = R := by
  ext i j
  fin_cases i <;> fin_cases j <;> simp [mat3ofMat4, mat4ofRot]

/-- Branch lemma for the smallest-component loop: component 2 wins when it
beats the winner of the first comparison. -/
theorem smallestComponent_eq_two (x : Vec3 K) (h1 : ¬ |x 1| < |x 0|)
    (h2 : |x 2| < |x 0|) : smallestComponent x = 2 := by
  simp [smallestComponent, h1, h2]

/-- Branch lemma for the smallest-component loop: component 0 wins when no
later component strictly beats it. -/
theorem smallestComponent_eq_zero (x : Vec3 K) (h1 : ¬ |x 1| < |x 0|)
    (h2 : ¬ |x 2| < |x 0|) : smallestComponent x = 0 := by
  simp [smallestComponent, h1, h2]

section ClaimOne

/-- The axis (2, 2, 1) of the C1 analysis, after normalization. -/
def axis221u : Vec3 ℚ := ![2 / 3, 2 / 3, 1 / 3]

/-- A revolute joint of the input graph whose declared axis is (2, 2, 1). -/
def joint221 : UrdfJoint ℚ :=
  ⟨.REVOLUTE, ![2, 2, 1], idPose, "link0", "link1", none⟩

/-- Normalizing the axis (2, 2, 1) through the concrete square root gives
`axis221u`. -/
theorem vecNormalize_axis221 : vecNormalize rpQ.sq joint221.axis = axis221u := by
  funext i
  fin_cases i <;>
    norm_num [vecNormalize, normSq3, dot3, rpQ, sqRat, joint221, axis221u]

/-- The smallest-magnitude component of the normalized axis (2, 2, 1) is
component 2. -/
theorem smallestComponent_axis221 :
    smallestComponent (![2 / 3, 2 / 3, 1 / 3] : Vec3 ℚ) = 2 := by
  apply smallestComponent_eq_two
  · norm_num
  · rw [show (![2 / 3, 2 / 3, 1 / 3] : Vec3 ℚ) 2 = 1 / 3 from rfl,
      show (![2 / 3, 2 / 3, 1 / 3] : Vec3 ℚ) 0 = 2 / 3 from rfl,
      show |(1 : ℚ) / 3| = 1 / 3 from by norm_num,
      show |(2 : ℚ) / 3| = 2 / 3 from by norm_num]
    norm_num

/-- CLAIM C1.  For a joint whose declared axis is the non-zero vector
(2, 2, 1), the frame normalizer does return a matrix whose column 0 is the
normalized axis and whose columns are pairwise orthogonal, with the
smallest-magnitude component (index 2) selecting the auxiliary basis
vector; but columns 1 and 2 are NOT unit length: both have squared norm
8/9.  This contradicts the claim (and the source comment at parser.cc:185
asserting an orthonormal basis): the code never renormalizes
`z = x ^ y0` and `y = z ^ x`, whose length is strictly below 1 whenever
the axis is not perpendicular to the selected basis vector. -/
theorem C1_frame_normalization_not_orthonormal :
    normSq3 axis221u = 1
    ∧ mat3ofMat4 (normalizeFrameOrientation rpQ (some joint221))
      = normalizeFrameOrientationOfUnit axis221u
    ∧ col3 (normalizeFrameOrientationOfUnit axis221u) 0 = axis221u
    ∧ dot3 (col3 (normalizeFrameOrientationOfUnit axis221u) 0)
        (col3 (normalizeFrameOrientationOfUnit axis221u) 1) = 0
    ∧ dot3 (col3 (normalizeFrameOrientationOfUnit axis221u) 0)
        (col3 (normalizeFrameOrientationOfUnit axis221u) 2) = 0
    ∧ dot3 (col3 (normalizeFrameOrientationOfUnit axis221u) 1)
        (col3 (normalizeFrameOrientationOfUnit axis221u) 2) = 0
    ∧ normSq3 (col3 (normalizeFrameOrientationOfUnit axis221u) 1) = 8 / 9
    ∧ normSq3 (col3 (normalizeFrameOrientationOfUnit axis221u) 2) = 8 / 9
    ∧ normSq3 (col3 (normalizeFrameOrientationOfUnit axis221u) 1) ≠ 1 := by
  obtain ⟨o1, o2, o3⟩ := frame_columns_orthogonal axis221u
  refine ⟨?_, ?_, frame_col0 axis221u, o1, o2, o3, ?_, ?_, ?_⟩
  · norm_num [normSq3, dot3, axis221u]
  · simp only [normalizeFrameOrientation, mat3of_mat4ofRot, vecNormalize_axis221]
  · rw [frame_col1]
    norm_num [normSq3, dot3, frameY, frameZ, frameY0, cross3,
      smallestComponent_axis221, axis221u, Fin.ext_iff]
  · rw [frame_col2]
    norm_num [normSq3, dot3, frameZ, frameY0, cross3,
      smallestComponent_axis221, axis221u, Fin.ext_iff]
  · rw [frame_col1]
    norm_num [normSq3, dot3, frameY, frameZ, frameY0, cross3,
      smallestComponent_axis221, axis221u, Fin.ext_iff]

end ClaimOne

/-- Embedding of `Parser::getPoseInReferenceFrame` (parser.cc:1144-1185).
The C++ recursion has no depth guard; the `fuel` argument models the call
stack, and running out of fuel (`none`) models the stack overflow on a
cyclic input.  `none` also models the undefined null dereference of the
base case when the joint is absent from the graph; in the recursive case
an absent joint is a logged error that returns the identity, and a
missing parent link or parent joint terminates the walk. -/
def getPoseInReferenceFrame (m : UrdfModel K) :
    Nat → String → String → Option (Mat4 K)
  | 0, _, _ => none
  | fuel + 1, referenceJointName, currentJointName =>
    if referenceJointName = currentJointName then
      match m.getJoint currentJointName with
      | none => none
      | some j => some (poseToMatrix j.ptj)
    else
      match m.getJoint currentJointName with
      | none => some 1
      | some joint =>
        let transform := poseToMatrix joint.ptj
        match m.getLink joint.parent_link_name with
        | none => some transform
        | some parentLink =>
          match parentLink.parent_joint with
          | none => some transform
          | some parentJointName =>
            (getPoseInReferenceFrame m fuel referenceJointName
              parentJointName).map (fun M => M * transform)

/-- Composition of two optional poses, used to state the composition law
of the pose resolver. -/
def composeOpt (a b : Option (Mat4 K)) : Option (Mat4 K) :=
  match a, b with
  | some X, some Y => some (X * Y)
  | _, _ => none

/-- The identity pose maps to the identity matrix. -/
theorem poseToMatrix_idPose : poseToMatrix (idPose : UrdfPose K) = 1 := by
  ext i j
  fin_cases i <;> fin_cases j <;>
    norm_num [poseToMatrix, idPose, Matrix.one_apply, Fin.ext_iff]

/-- A pure-translation pose maps to the corresponding homogeneous
translation matrix. -/
theorem poseToMatrix_translPose (x y z : K) :
    poseToMatrix (translPose x y z)
      = !![1, 0, 0, x; 0, 1, 0, y; 0, 0, 1, z; 0, 0, 0, 1] := by
  ext i j
  fin_cases i <;> fin_cases j <;>
    norm_num [poseToMatrix, translPose, Fin.ext_iff]

/-- CLAIM C7.  When the reference joint equals the target joint, the pose
resolver returns exactly the target joint's own parent-to-joint-origin
transform converted to a matrix.  The statement depends on nothing but
the entry of that single joint in the input graph, so the result is
independent of the rest of the graph. -/
theorem C7_resolve_self_is_own_transform (m : UrdfModel K) (fuel : Nat)
    (name : String) (j : UrdfJoint K) (h : m.getJoint name = some j) :
    getPoseInReferenceFrame m (fuel + 1) name name
      = some (poseToMatrix j.ptj) := by
  simp [getPoseInReferenceFrame, h]

section ChainModel

/-- Joint A of the chain model: attaches linkA to the root link. -/
def jointA : UrdfJoint ℚ := ⟨.FIXED, ![0, 0, 1], idPose, "world", "linkA", none⟩

/-- Joint B of the chain model: attaches linkB to linkA, with a
parent-to-joint translation of (1, 0, 0). -/
def jointB : UrdfJoint ℚ :=
  ⟨.FIXED, ![0, 0, 1], translPose 1 0 0, "linkA", "linkB", none⟩

/-- Joint C of the chain model: attaches linkC to linkB. -/
def jointC : UrdfJoint ℚ := ⟨.FIXED, ![0, 0, 1], idPose, "linkB", "linkC", none⟩

/-- A three-joint chain A -> B -> C hanging from the root link. -/
def chainModel : UrdfModel ℚ :=
  ⟨[("A", jointA), ("B", jointB), ("C", jointC)],
   [("linkA", ⟨some "A", ["B"], none, none, none⟩),
    ("linkB", ⟨some "B", ["C"], none, none, none⟩),
    ("linkC", ⟨some "C", [], none, none, none⟩),
    ("world", ⟨none, ["A"], none, none, none⟩)]⟩

/-- Witness for C7: on the concrete chain model, resolving joint A in its
own frame returns A's parent-to-joint transform. -/
theorem C7_resolve_self_witness :
    chainModel.getJoint "A" = some jointA
    ∧ getPoseInReferenceFrame chainModel 1 "A" "A"
      = some (poseToMatrix jointA.ptj) := by
  have h : chainModel.getJoint "A" = some jointA := by
    simp [chainModel, UrdfModel.getJoint, List.lookup]
  exact ⟨h, C7_resolve_self_is_own_transform chainModel 0 "A" jointA h⟩

/-- CLAIM C2, counterexample.  On the chain A -> B -> C (B the parent
joint of C's parent link), composing `resolve(A,B)` with `resolve(B,C)`
does NOT equal `resolve(A,C)`: the translation entry of the composition
is 2 while the direct resolution gives 1, because `resolve(B,C)` starts
from the base case `resolve(B,B)` which already contains B's own
parent-to-joint transform, so that transform is applied twice. -/
theorem C2_composition_counterexample :
    (composeOpt (getPoseInReferenceFrame chainModel 9 "A" "B")
        (getPoseInReferenceFrame chainModel 9 "B" "C")).map (fun M => M 0 3)
      = some 2
    ∧ (getPoseInReferenceFrame chainModel 9 "A" "C").map (fun M => M 0 3)
      = some 1
    ∧ composeOpt (getPoseInReferenceFrame chainModel 9 "A" "B")
        (getPoseInReferenceFrame chainModel 9 "B" "C")
      ≠ getPoseInReferenceFrame chainModel 9 "A" "C" := by
  have hAB : getPoseInReferenceFrame chainModel 9 "A" "B"
      = some (poseToMatrix jointA.ptj * poseToMatrix jointB.ptj) := by
    simp [getPoseInReferenceFrame, chainModel, UrdfModel.getJoint,
      UrdfModel.getLink, List.lookup, jointA, jointB]
  have hBC : getPoseInReferenceFrame chainModel 9 "B" "C"
      = some (poseToMatrix jointB.ptj * poseToMatrix jointC.ptj) := by
    simp [getPoseInReferenceFrame, chainModel, UrdfModel.getJoint,
      UrdfModel.getLink, List.lookup, jointB, jointC]
  have hAC : getPoseInReferenceFrame chainModel 9 "A" "C"
      = some (poseToMatrix jointA.ptj * poseToMatrix jointB.ptj
          * poseToMatrix jointC.ptj) := by
    simp [getPoseInReferenceFrame, chainModel, UrdfModel.getJoint,
      UrdfModel.getLink, List.lookup, jointA, jointB, jointC, Matrix.mul_assoc]
  have e1 : (poseToMatrix jointA.ptj * poseToMatrix jointB.ptj
      * (poseToMatrix jointB.ptj * poseToMatrix jointC.ptj)) 0 3 = 2 := by
    rw [show jointA.ptj = idPose from rfl, show jointB.ptj = translPose 1 0 0
      from rfl, show jointC.ptj = idPose from rfl, poseToMatrix_idPose,
      poseToMatrix_translPose, Matrix.one_mul, Matrix.mul_one]
    norm_num [Matrix.mul_apply, Fin.sum_univ_four]
  have e2 : (poseToMatrix jointA.ptj * poseToMatrix jointB.ptj
      * poseToMatrix jointC.ptj) 0 3 = 1 := by
    rw [show jointA.ptj = idPose from rfl, show jointB.ptj = translPose 1 0 0
      from rfl, show jointC.ptj = idPose from rfl, poseToMatrix_idPose,
      poseToMatrix_translPose, Matrix.one_mul, Matrix.mul_one]
    simp
  refine ⟨?_, ?_, ?_⟩
  · rw [hAB, hBC]
    simp only [composeOpt, Option.map_some']
    rw [e1]
  · rw [hAC]
    simp only [Option.map_some']
    rw [e2]
  · rw [hAB, hBC, hAC]
    simp only [composeOpt]
    intro h
    have h2 := congrArg (fun M : Mat4 ℚ => M 0 3) (Option.some.inj h)
    simp only at h2
    rw [e1, e2] at h2
    norm_num at h2

/-- CLAIM C2, amended.  The composition law that actually holds in the
code: for a chain where B is the parent joint of C's parent link,
`resolve(ref, C)` equals `resolve(ref, B)` composed with C's OWN
parent-to-joint-origin transform; and `resolve(B, C)` itself equals
B's transform times C's transform, which explains the double application
of B's transform in the claimed identity. -/
theorem C2_composition_amended (m : UrdfModel K) (fuel : Nat)
    (ref C B : String) (j jB : UrdfJoint K) (pl : UrdfLink K)
    (hC : m.getJoint C = some j)
    (hpl : m.getLink j.parent_link_name = some pl)
    (hB : pl.parent_joint = some B)
    (hrefC : ref ≠ C) (hBC : B ≠ C)
    (hjB : m.getJoint B = some jB) :
    getPoseInReferenceFrame m (fuel + 1) ref C
      = (getPoseInReferenceFrame m fuel ref B).map
          (fun M => M * poseToMatrix j.ptj)
    ∧ getPoseInReferenceFrame m (fuel + 2) B C
      = some (poseToMatrix jB.ptj * poseToMatrix j.ptj) := by
  constructor
  · simp [getPoseInReferenceFrame, hC, hpl, hB, hrefC]
  · simp [getPoseInReferenceFrame, hC, hpl, hB, hBC, hjB]

/-- Witness for the amended C2 on the concrete chain model. -/
theorem C2_composition_amended_witness :
    getPoseInReferenceFrame chainModel 9 "A" "C"
      = (getPoseInReferenceFrame chainModel 8 "A" "B").map
          (fun M => M * poseToMatrix jointC.ptj)
    ∧ getPoseInReferenceFrame chainModel 9 "B" "C"
      = some (poseToMatrix jointB.ptj * poseToMatrix jointC.ptj) := by
  have h := C2_composition_amended chainModel 7 "A" "C" "B" jointC jointB
    ⟨some "B", ["C"], none, none, none⟩
    (by simp [chainModel, UrdfModel.getJoint, List.lookup, jointC])
    (by simp [chainModel, UrdfModel.getLink, List.lookup, jointC])
    (by simp)
    (by simp)
    (by simp)
    (by simp [chainModel, UrdfModel.getJoint, List.lookup, jointB])
  exact ⟨h.1, h.2⟩

end ChainModel

/-- Kind of an engine-owned joint node (`hpp::model::FreeflyerJoint`,
`RotationJoint`, `TranslationJoint`, `AnchorJoint`). -/
inductive NodeKind
  | freeflyer
  | rotation
  | translation
  | anchor
deriving DecidableEq

/-- An engine-owned joint node as created by the joint factory: its name,
kind, creation pose, and the bound-setting calls performed at creation
(`isBounded`, `bounds`, `velocityBounds`, `torqueBounds`), each keyed by
the degree of freedom.  A position bound of `none` stands for an infinite
bound. -/
structure JointNode (K : Type) where
  name : String
  kind : NodeKind
  pos : Mat4 K
  boundedCalls : List (Nat × Bool)
  posBounds : List (Nat × Option K × Option K)
  velBounds : List (Nat × K × K)
  torqueBounds : List (Nat × K × K)
deriving DecidableEq

/-- The per-build registry `jointsMap_`, a `std::map` from joint name to
node: an association list kept in increasing key order, which is the
iteration order of the C++ map. -/
abbrev Registry (K : Type) := List (String × JointNode K)

/-- Lexicographic character-list comparison, the byte order used by the
keys of a C++ `std::map` over `std::string`. -/
def strLtGo : List Char → List Char → Bool
  | [], [] => false
  | [], _ :: _ => true
  | _ :: _, [] => false
  | c :: cs, d :: ds =>
    if c < d then true else if d < c then false else strLtGo cs ds

/-- Lexicographic string comparison on the character lists. -/
def strLt (a b : String) : Bool := strLtGo a.data b.data

/-- Insertion `jointsMap_[name] = joint` keeping the key order of the
C++ `std::map`. -/
def regInsert (name : String) (j : JointNode K) :
    Registry K → Registry K
  | [] => [(name, j)]
  | (k, v) :: rest =>
    if strLt name k then (name, j) :: (k, v) :: rest
    else if name = k then (name, j) :: rest
    else (k, v) :: regInsert name j rest

/-- Embedding of `Parser::createFreeflyerJoint` (parser.cc:978-996): on a
duplicate name the node pointer is reset and the registry is untouched;
otherwise a freeflyer node is created, its six degrees of freedom are
marked unbounded, and it is registered. -/
def createFreeflyerJoint (name : String) (mat : Mat4 K) (reg : Registry K) :
    Option (JointNode K) × Registry K :=
  if (List.lookup name reg).isSome then (none, reg)
  else
    let joint : JointNode K :=
      ⟨name, .freeflyer, mat, (List.range 6).map (fun i => (i, false)),
        [], [], []⟩
    (some joint, regInsert name joint reg)

/-- Embedding of `Parser::createRotationJoint` (parser.cc:998-1022):
rejects duplicates; with limits present, bounds dof 0 with the given
lower/upper position bounds and symmetric velocity and torque bounds. -/
def createRotationJoint (name : String) (mat : Mat4 K)
    (limits : Option (JointLimits K)) (reg : Registry K) :
    Option (JointNode K) × Registry K :=
  if (List.lookup name reg).isSome then (none, reg)
  else
    let joint : JointNode K :=
      match limits with
      | none => ⟨name, .rotation, mat, [], [], [], []⟩
      | some l =>
        ⟨name, .rotation, mat, [(0, true)], [(0, some l.lower, some l.upper)],
          [(0, -l.velocity, l.velocity)], [(0, -l.effort, l.effort)]⟩
    (some joint, regInsert name joint reg)

/-- Embedding of `Parser::createContinuousJoint` (parser.cc:1024-1041):
rejects duplicates; dof 0 is explicitly unbounded. -/
def createContinuousJoint (name : String) (mat : Mat4 K) (reg : Registry K) :
    Option (JointNode K) × Registry K :=
  if (List.lookup name reg).isSome then (none, reg)
  else
    let joint : JointNode K := ⟨name, .rotation, mat, [(0, false)], [], [], []⟩
    (some joint, regInsert name joint reg)

/-- Embedding of `Parser::createTranslationJoint` (parser.cc:1043-1068):
rejects duplicates; with limits present, bounds dof 0 like the rotation
case. -/
def createTranslationJoint (name : String) (mat : Mat4 K)
    (limits : Option (JointLimits K)) (reg : Registry K) :
    Option (JointNode K) × Registry K :=
  if (List.lookup name reg).isSome then (none, reg)
  else
    let joint : JointNode K :=
      match limits with
      | none => ⟨name, .translation, mat, [], [], [], []⟩
      | some l =>
        ⟨name, .translation, mat, [(0, true)],
          [(0, some l.lower, some l.upper)],
          [(0, -l.velocity, l.velocity)], [(0, -l.effort, l.effort)]⟩
    (some joint, regInsert name joint reg)

/-- Embedding of `Parser::createAnchorJoint` (parser.cc:1070-1085):
rejects duplicates; anchor joints carry no motion freedom. -/
def createAnchorJoint (name : String) (mat : Mat4 K) (reg : Registry K) :
    Option (JointNode K) × Registry K :=
  if (List.lookup name reg).isSome then (none, reg)
  else
    let joint : JointNode K := ⟨name, .anchor, mat, [], [], [], []⟩
    (some joint, regInsert name joint reg)

/-- Embedding of `Parser::findJoint` (parser.cc:1087-1098). -/
def findJoint (reg : Registry K) (jointName : String) :
    Option (JointNode K) :=
  List.lookup jointName reg

/-- CLAIM C6.  Every joint-creation operation invoked with a name already
present in the registry returns failure (a reset pointer) and leaves the
registry exactly as it was: the first registered node for that name is
preserved and no entry is added or modified. -/
theorem C6_duplicate_creation_rejected (name : String) (mat : Mat4 K)
    (limits : Option (JointLimits K)) (reg : Registry K)
    (h : (List.lookup name reg).isSome) :
    createFreeflyerJoint name mat reg = (none, reg)
    ∧ createRotationJoint name mat limits reg = (none, reg)
    ∧ createContinuousJoint name mat reg = (none, reg)
    ∧ createTranslationJoint name mat limits reg = (none, reg)
    ∧ createAnchorJoint name mat reg = (none, reg) := by
  simp [createFreeflyerJoint, createRotationJoint, createContinuousJoint,
    createTranslationJoint, createAnchorJoint, h]

/-- A concrete registry holding one anchor node named j1. -/
def regOne : Registry ℚ := [("j1", ⟨"j1", .anchor, 1, [], [], [], []⟩)]

/-- Witness for C6 at a concrete registry already containing "j1". -/
theorem C6_duplicate_creation_rejected_witness :
    createFreeflyerJoint "j1" (1 : Mat4 ℚ) regOne = (none, regOne)
    ∧ createRotationJoint "j1" (1 : Mat4 ℚ) none regOne = (none, regOne)
    ∧ createContinuousJoint "j1" (1 : Mat4 ℚ) regOne = (none, regOne)
    ∧ createTranslationJoint "j1" (1 : Mat4 ℚ) none regOne = (none, regOne)
    ∧ createAnchorJoint "j1" (1 : Mat4 ℚ) regOne = (none, regOne) :=
  C6_duplicate_creation_rejected "j1" 1 none regOne (by simp [regOne])

section Inertia

/-- Embedding of `CkitMat4::inverse` / `matrix4d::Inversion`: the true
matrix inverse, written through the adjugate so that it is a total
computable function. -/
def matInv (M : Mat4 K) : Mat4 K := (M.det)⁻¹ • M.adjugate

/-- Homogeneous translation matrix, the `localComTransform` of
`addBodiesToJoints` (parser.cc:444-448). -/
def translMat (c : Vec3 K) : Mat4 K :=
  !![1, 0, 0, c 0;
     0, 1, 0, c 1;
     0, 0, 1, c 2;
     0, 0, 0, 1]

/-- Translation column of a homogeneous matrix. -/
def translOfMat4 (M : Mat4 K) : Vec3 K := ![M 0 3, M 1 3, M 2 3]

/-- The inertia re-expression of `addBodiesToJoints` (parser.cc:455-466):
embed the 3 by 3 tensor in an otherwise-identity 4 by 4 matrix, conjugate
by the inverse of the normalization transform `N`, and extract the 3 by 3
block: `I' = N^-1 * I * N`. -/
def reexpressInertia (N : Mat4 K) (I : Mat3 K) : Mat3 K :=
  mat3ofMat4 (matInv N * mat4ofRot I * N)

/-- The center-of-mass re-expression of `addBodiesToJoints`
(parser.cc:444-453): `com' = N^-1 * com` through a homogeneous
translation matrix. -/
def reexpressCom (N : Mat4 K) (c : Vec3 K) : Vec3 K :=
  translOfMat4 (matInv N * translMat c)

/-- The rotation-block embedding turns matrix product into matrix
product. -/
theorem mat4ofRot_mul (A B : Mat3 K) :
    mat4ofRot A * mat4ofRot B = mat4ofRot (A * B) := by
  ext i j
  fin_cases i <;> fin_cases j <;>
    simp [mat4ofRot, Matrix.mul_apply, Fin.sum_univ_four, Fin.sum_univ_three]

/-- The rotation-block embedding commutes with transposition. -/
theorem mat4ofRot_transpose (R : Mat3 K) :
    (mat4ofRot R).transpose = mat4ofRot R.transpose := by
  ext i j
  fin_cases i <;> fin_cases j <;> simp [mat4ofRot, Matrix.transpose_apply]

/-- The rotation-block embedding maps the identity to the identity. -/
theorem mat4ofRot_one : mat4ofRot (1 : Mat3 K) = 1 := by
  ext i j
  fin_cases i <;> fin_cases j <;>
    simp +decide [mat4ofRot, Matrix.one_apply, Matrix.vecHead,
      Matrix.vecTail]

/-- The adjugate-based inverse agrees with the Mathlib matrix inverse. -/
theorem matInv_eq_inv (M : Mat4 K) : matInv M = M⁻¹ := by
  rw [matInv, Matrix.inv_def, Ring.inverse_eq_inv]

/-- For an orthonormal rotation block, the homogeneous embedding is
inverted by its transpose. -/
theorem matInv_mat4ofRot_orth (R : Mat3 K) (hR : R.transpose * R = 1) :
    matInv (mat4ofRot R) = mat4ofRot R.transpose := by
  rw [matInv_eq_inv]
  apply Matrix.inv_eq_left_inv
  rw [mat4ofRot_mul, hR, mat4ofRot_one]

/-- For an orthonormal `R`, the inertia re-expression computed by the
body attacher is exactly the similarity transform at the 3 by 3 level. -/
theorem reexpressInertia_orth (R I : Mat3 K) (hR : R.transpose * R = 1) :
    reexpressInertia (mat4ofRot R) I = R.transpose * I * R := by
  rw [reexpressInertia, matInv_mat4ofRot_orth R hR, mat4ofRot_mul,
    mat4ofRot_mul, mat3of_mat4ofRot]

/-- Determinant of an orthonormal similarity conjugate of a shifted
matrix. -/
theorem det_conj_orth (R X : Mat3 K) (hR : R.transpose * R = 1) :
    (R.transpose * X * R).det = X.det := by
  have hdet : R.transpose.det * R.det = 1 := by
    rw [← Matrix.det_mul, hR, Matrix.det_one]
  calc (R.transpose * X * R).det
      = R.transpose.det * X.det * R.det := by
        rw [Matrix.det_mul, Matrix.det_mul]
    _ = X.det * (R.transpose.det * R.det) := by ring
    _ = X.det := by rw [hdet, mul_one]

/-- CLAIM C9.  For every symmetric inertia tensor `I`, every orthonormal
rotation `R` and every scalar, the characteristic determinant of the
re-expressed tensor `I' = R^-1 * I * R` computed by the body/inertia
attacher equals that of `I`; hence `I'` and `I` have exactly the same
eigenvalues (principal moments). -/
theorem C9_inertia_reexpression_preserves_eigenvalues (R I : Mat3 K)
    (lam : K) (hR : R.transpose * R = 1) (hI : I.transpose = I) :
    (reexpressInertia (mat4ofRot R) I - lam • 1).det
      = (I - lam • 1).det := by
  rw [reexpressInertia_orth R I hR]
  have key : R.transpose * I * R - lam • 1
      = R.transpose * (I - lam • 1) * R := by
    rw [Matrix.mul_sub, Matrix.sub_mul, Matrix.mul_smul, Matrix.smul_mul,
      Matrix.mul_one, hR]
  rw [key, det_conj_orth R (I - lam • 1) hR]

/-- A concrete 90-degree rotation about the z axis. -/
def rot90 : Mat3 ℚ := !![0, -1, 0; 1, 0, 0; 0, 0, 1]

/-- A concrete diagonal inertia tensor. -/
def inertiaDiag : Mat3 ℚ := !![1, 0, 0; 0, 2, 0; 0, 0, 3]

/-- Witness for C9 at a concrete rotation, tensor and scalar. -/
theorem C9_inertia_reexpression_witness :
    rot90.transpose * rot90 = 1
    ∧ inertiaDiag.transpose = inertiaDiag
    ∧ (reexpressInertia (mat4ofRot rot90) inertiaDiag - (2 : ℚ) • 1).det
      = (inertiaDiag - (2 : ℚ) • 1).det := by
  have hRT : rot90.transpose = !![0, 1, 0; -1, 0, 0; 0, 0, 1] := by
    ext i j
    fin_cases i <;> fin_cases j <;> rfl
  have hR : rot90.transpose * rot90 = 1 := by
    rw [hRT]
    ext i j
    fin_cases i <;> fin_cases j <;>
      simp +decide [rot90, Matrix.mul_apply, Fin.sum_univ_three,
        Matrix.one_apply]
  have hI : inertiaDiag.transpose = inertiaDiag := by
    ext i j
    fin_cases i <;> fin_cases j <;> rfl
  exact ⟨hR, hI,
    C9_inertia_reexpression_preserves_eigenvalues rot90 inertiaDiag 2 hR hI⟩

end Inertia

/-- Outcome of a build stage.  `ok` carries the stage result; `fail` is
the controlled failure path of the source (a `return false` or a reset
robot pointer); `crash` models undefined behavior (null-pointer or
end-iterator dereference), an uncaught exception, or unbounded recursion
(fuel exhaustion). -/
inductive Outcome (α : Type)
  | ok (a : α)
  | fail
  | crash

/-- True exactly on the `ok` outcome. -/
def Outcome.isOk {α : Type} : Outcome α → Bool
  | .ok _ => true
  | _ => false

/-- The special joint names resolved by `findSpecialJoints`
(parser.cc:211-226); unresolved names stay empty. -/
structure SpecialNames where
  waist : String
  chest : String
  leftWrist : String
  rightWrist : String
  leftHand : String
  rightHand : String
  leftAnkle : String
  rightAnkle : String
  leftFoot : String
  rightFoot : String
  gaze : String

/-- Embedding of `Parser::findSpecialJoint` (parser.cc:198-209): look up
the well-known link; when it exists and has a parent joint, that joint's
name is assigned, otherwise the previous value is kept. -/
def findSpecialJoint (m : UrdfModel K) (repName : String)
    (current : String) : String :=
  match m.getLink repName with
  | none => current
  | some l =>
    match l.parent_joint with
    | none => current
    | some jn => jn

/-- Embedding of `Parser::findSpecialJoints` (parser.cc:211-226): the
waist is hard-coded to "base_joint"; the other roles are looked up by
well-known link names, starting from empty strings. -/
def findSpecialJoints (m : UrdfModel K) : SpecialNames :=
  ⟨"base_joint",
   findSpecialJoint m "torso" "",
   findSpecialJoint m "l_wrist" "",
   findSpecialJoint m "r_wrist" "",
   findSpecialJoint m "l_gripper" "",
   findSpecialJoint m "r_gripper" "",
   findSpecialJoint m "l_ankle" "",
   findSpecialJoint m "r_ankle" "",
   findSpecialJoint m "l_sole" "",
   findSpecialJoint m "r_sole" "",
   findSpecialJoint m "gaze" ""⟩

/-- Loop body of `Parser::parseJoints` (parser.cc:277-324): for each
entry of the joint map, resolve its pose in the reference frame of
"base_footprint_joint", normalize the orientation for actuated kinds,
then dispatch on the joint type.  UNKNOWN and PLANAR return failure; all
create results are IGNORED except through the registry they thread, so a
duplicate-name rejection does not abort the loop. -/
def parseJointsLoop (rp : RealParams K) (m : UrdfModel K) (fuel : Nat) :
    List (String × UrdfJoint K) → Registry K → Outcome (Registry K)
  | [], reg => .ok reg
  | (name, j) :: rest, reg =>
    match getPoseInReferenceFrame m fuel "base_footprint_joint" name with
    | none => .crash
    | some pos0 =>
      match m.getJoint name with
      | none => .crash
      | some joint =>
        let position :=
          if joint.jtype = .REVOLUTE ∨ joint.jtype = .CONTINUOUS
              ∨ joint.jtype = .PRISMATIC then
            pos0 * normalizeFrameOrientation rp (some joint)
          else pos0
        match j.jtype with
        | .UNKNOWN => .fail
        | .REVOLUTE =>
          parseJointsLoop rp m fuel rest
            (createRotationJoint name position j.limits reg).2
        | .CONTINUOUS =>
          parseJointsLoop rp m fuel rest
            (createContinuousJoint name position reg).2
        | .PRISMATIC =>
          parseJointsLoop rp m fuel rest
            (createTranslationJoint name position j.limits reg).2
        | .FLOATING =>
          parseJointsLoop rp m fuel rest
            (createFreeflyerJoint name position reg).2
        | .PLANAR => .fail
        | .FIXED =>
          parseJointsLoop rp m fuel rest
            (createAnchorJoint name position reg).2

/-- Embedding of `Parser::parseJoints` (parser.cc:261-327): create the
synthesized root free-flyer "base_joint" at the identity (failure there
aborts), then run the loop over the joint map. -/
def parseJoints (rp : RealParams K) (m : UrdfModel K) (fuel : Nat)
    (reg : Registry K) : Outcome (JointNode K × Registry K) :=
  match createFreeflyerJoint "base_joint" (1 : Mat4 K) reg with
  | (none, _) => .fail
  | (some root, reg1) =>
    match parseJointsLoop rp m fuel m.joints reg1 with
    | .ok reg2 => .ok (root, reg2)
    | .fail => .fail
    | .crash => .crash

/-- Worklist form of the recursion of `Parser::getChildrenJoint`
(parser.cc:931-976).  The worklist holds the child joint names still to
classify, in document order; a registered name is appended to the result,
an unregistered one is expanded through its child link (the source
recursion), with the discovered children processed before the remaining
worklist, exactly as the nested recursion does.  A name that is neither
registered nor in the model (and is not "base_joint") makes the walk
report failure with the partial result, as the `return false` of the
source; a missing child link is logged and then dereferenced
(parser.cc:953-959), a crash. -/
def gcjList (m : UrdfModel K) (reg : Registry K) :
    Nat → List String → List String → Outcome (Bool × List String)
  | _, [], acc => .ok (true, acc)
  | 0, _ :: _, _ => .crash
  | fuel + 1, c :: rest, acc =>
    if (List.lookup c reg).isSome then gcjList m reg fuel rest (acc ++ [c])
    else if (m.getJoint c).isNone ∧ c ≠ "base_joint" then .ok (false, acc)
    else
      let childLink :=
        if c = "base_joint" then m.getLink "base_link"
        else
          match m.getJoint c with
          | some jt => m.getLink jt.child_link_name
          | none => none
      match childLink with
      | none => .crash
      | some cl => gcjList m reg fuel (cl.child_joints ++ rest) acc

/-- Embedding of `Parser::getChildrenJoint` (parser.cc:923-976) for a
top-level joint name: the name itself is expanded unconditionally, its
discovered children are classified by `gcjList`. -/
def getChildrenJointEmb (m : UrdfModel K) (reg : Registry K) (fuel : Nat)
    (jointName : String) : Outcome (Bool × List String) :=
  if (m.getJoint jointName).isNone ∧ jointName ≠ "base_joint" then
    .ok (false, [])
  else
    let childLink :=
      if jointName = "base_joint" then m.getLink "base_link"
      else
        match m.getJoint jointName with
        | some jt => m.getLink jt.child_link_name
        | none => none
    match childLink with
    | none => .crash
    | some cl => gcjList m reg fuel cl.child_joints []

/-- Looking up every discovered child in the registry, as the loop of
`connectJoints` does; a missing child is the end-iterator dereference of
the miswritten guard `child == jointsMap_.end () && !!child->second`
(parser.cc:365-370), hence `none` (a crash), not a clean failure. -/
def childNodes (reg : Registry K) : List String → Option (List (JointNode K))
  | [] => some []
  | c :: cs =>
    match List.lookup c reg with
    | none => none
    | some n => (childNodes reg cs).map (fun l => n :: l)

/-- Worklist form of `Parser::connectJoints` (parser.cc:359-376):
process each node by discovering its children (the success flag of the
vector-returning `getChildrenJoint` overload is dropped, as in the
source), record the parent-child edges, and recurse on the child nodes
before the remaining worklist. -/
def connectList (m : UrdfModel K) (reg : Registry K) :
    Nat → List (JointNode K) → Outcome (List (String × String))
  | 0, _ => .crash
  | _ + 1, [] => .ok []
  | fuel + 1, j :: rest =>
    match getChildrenJointEmb m reg fuel j.name with
    | .crash => .crash
    | .fail => .fail
    | .ok (_flag, children) =>
      match childNodes reg children with
      | none => .crash
      | some nodes =>
        match connectList m reg fuel (nodes ++ rest) with
        | .ok edges => .ok (children.map (fun c => (j.name, c)) ++ edges)
        | .fail => .fail
        | .crash => .crash

/-- An output geometry primitive emitted by `addSolidComponentToJoint`.
The capsule end points of the derived segment come from the external
`getCapsule` call and are not modelled; the segment keeps its radius and
placement. -/
inductive SolidPrim (K : Type)
  | polyhedron (name filename : String) (scaleX scaleY scaleZ : K)
      (pos : Mat4 K)
  | cylinder (name : String) (radius length : K) (pos : Mat4 K)
  | box (name : String) (dx dy dz : K) (pos : Mat4 K)
  | capsule (name : String) (length radius : K) (pos : Mat4 K)
  | segment (name : String) (radius : K) (pos : Mat4 K)

/-- The fixed 90-degree rotation `zTox` (`rotateY (M_PI / 2)`,
parser.cc:620-622 and 687-689) mapping the input format's cylinder axis z
to the output primitive axis x.  The matrix is the exact rotation the
floating-point call approximates. -/
def zToxMat : Mat4 K :=
  !![0, 0, 1, 0;
     0, 1, 0, 0;
     -1, 0, 0, 0;
     0, 0, 0, 1]

/-- Modelled from the spec: `loadPolyhedronFromResource` is declared by
this repository but its definition is not among the provided sources
(only its caller is).  The specification delegates resource retrieval
entirely to an external collaborator and the core only consumes the
resulting bytes, so loading is modelled as always succeeding. -/
def loadPolyhedronFromResource : Bool := true

/-- Embedding of `Parser::computeBodyAbsolutePosition`
(parser.cc:510-536): chain the parent joint's stored position (undoing
the normalization rotation first for actuated parent joints) with the
local origin offset.  `none` models the null dereference when the parent
joint cannot be found. -/
def computeBodyAbsolutePosition (rp : RealParams K) (m : UrdfModel K)
    (reg : Registry K) (linkName : String) (link : UrdfLink K)
    (pose : UrdfPose K) : Option (Mat4 K) :=
  let linkPositionInParentJoint := poseToMatrix pose
  if linkName = "base_link" then
    match findJoint reg "base_joint" with
    | none => none
    | some n => some (n.pos * linkPositionInParentJoint)
  else
    match link.parent_joint with
    | none => none
    | some pjName =>
      match m.getJoint pjName with
      | none => none
      | some pj =>
        match findJoint reg pjName with
        | none => none
        | some n =>
          let parentJointInWorld :=
            if pj.jtype = .REVOLUTE ∨ pj.jtype = .CONTINUOUS
                ∨ pj.jtype = .PRISMATIC then
              n.pos * matInv (normalizeFrameOrientation rp (some pj))
            else n.pos
          some (parentJointInWorld * linkPositionInParentJoint)

/-- Embedding of `Parser::addSolidComponentToJoint` (parser.cc:538-718):
four geometry-pair cases are handled (mesh+mesh with equal filenames,
cylinder+cylinder, box+box, mesh+cylinder as a capsule plus a segment);
a mesh filename mismatch is a failure; every other combination is
silently skipped.  The caller guarantees both blocks are present. -/
def addSolidComponentToJoint (rp : RealParams K) (m : UrdfModel K)
    (reg : Registry K) (linkName : String) (link : UrdfLink K) :
    Outcome (List (SolidPrim K)) :=
  match link.visual, link.collision with
  | some visual, some collision =>
    let meshMesh : Outcome (List (SolidPrim K)) :=
      match visual.geometry, collision.geometry with
      | .mesh vf vsx vsy vsz, .mesh cf _ _ _ =>
        if vf ≠ cf then .fail
        else if loadPolyhedronFromResource = false then .fail
        else
          match computeBodyAbsolutePosition rp m reg linkName link
              visual.origin with
          | none => .crash
          | some position => .ok [.polyhedron linkName vf vsx vsy vsz position]
      | _, _ => .ok []
    let cylCyl : Outcome (List (SolidPrim K)) :=
      match visual.geometry, collision.geometry with
      | .cylinder vr vl, .cylinder _ _ =>
        match computeBodyAbsolutePosition rp m reg linkName link
            visual.origin with
        | none => .crash
        | some position => .ok [.cylinder linkName vr vl (position * zToxMat)]
      | _, _ => .ok []
    let boxBox : Outcome (List (SolidPrim K)) :=
      match visual.geometry, collision.geometry with
      | .box dx dy dz, .box _ _ _ =>
        match computeBodyAbsolutePosition rp m reg linkName link
            visual.origin with
        | none => .crash
        | some position => .ok [.box linkName dx dy dz position]
      | _, _ => .ok []
    let meshCyl : Outcome (List (SolidPrim K)) :=
      match visual.geometry, collision.geometry with
      | .mesh _ _ _ _, .cylinder cr cl =>
        match computeBodyAbsolutePosition rp m reg linkName link
            collision.origin with
        | none => .crash
        | some position =>
          .ok [.capsule linkName cl cr (position * zToxMat),
               .segment (linkName ++ "-segment") cr (position * zToxMat)]
      | _, _ => .ok []
    match meshMesh with
    | .fail => .fail
    | .crash => .crash
    | .ok l1 =>
      match cylCyl with
      | .fail => .fail
      | .crash => .crash
      | .ok l2 =>
        match boxBox with
        | .fail => .fail
        | .crash => .crash
        | .ok l3 =>
          match meshCyl with
          | .fail => .fail
          | .crash => .crash
          | .ok l4 => .ok (l1 ++ l2 ++ l3 ++ l4)
  | _, _ => .crash

/-- The body attached to one joint: mass, center of mass and inertia
tensor (re-expressed in the normalized frame when applicable), plus the
geometry primitives. -/
structure BodyRec (K : Type) where
  mass : K
  com : Vec3 K
  inertia : Mat3 K
  prims : List (SolidPrim K)

/-- One iteration of the loop of `Parser::addBodiesToJoints`
(parser.cc:378-508) for the registry entry `name`: skip entries whose
joint is gone (unless the synthesized root), fail on a missing child
link, default missing inertial data to zero with a notice, re-express
center of mass and inertia through the parent joint's normalization for
actuated parent kinds, and attach geometry when both visual and
collision blocks exist. -/
def addBodiesEntry (rp : RealParams K) (m : UrdfModel K) (reg : Registry K)
    (name : String) : Outcome (Option (BodyRec K)) :=
  let joint := m.getJoint name
  if joint.isNone ∧ name ≠ "base_joint" then .ok none
  else
    let childLinkName :=
      if name = "base_joint" then "base_link"
      else
        match joint with
        | some j => j.child_link_name
        | none => ""
    match m.getLink childLinkName with
    | none => .fail
    | some link =>
      let inertres : Outcome (K × Vec3 K × Mat3 K) :=
        match link.inertial with
        | none => .ok (0, ![0, 0, 0], 0)
        | some inr =>
          let localCom : Vec3 K := ![inr.ox, inr.oy, inr.oz]
          let iM : Mat3 K :=
            !![inr.ixx, inr.ixy, inr.ixz;
               inr.ixy, inr.iyy, inr.iyz;
               inr.ixz, inr.iyz, inr.izz]
          if name = "base_joint" then .ok (inr.mass, localCom, iM)
          else
            match link.parent_joint with
            | none => .crash
            | some pjName =>
              match m.getJoint pjName with
              | none => .crash
              | some pj =>
                if pj.jtype = .REVOLUTE ∨ pj.jtype = .CONTINUOUS
                    ∨ pj.jtype = .PRISMATIC then
                  let N := normalizeFrameOrientation rp (some pj)
                  .ok (inr.mass, reexpressCom N localCom,
                    reexpressInertia N iM)
                else .ok (inr.mass, localCom, iM)
      match inertres with
      | .crash => .crash
      | .fail => .fail
      | .ok (mass, com, iM) =>
        if link.visual.isSome ∧ link.collision.isSome then
          match addSolidComponentToJoint rp m reg childLinkName link with
          | .fail => .fail
          | .crash => .crash
          | .ok prims => .ok (some ⟨mass, com, iM, prims⟩)
        else .ok (some ⟨mass, com, iM, []⟩)

/-- The loop of `Parser::addBodiesToJoints` over the registry entries, in
map iteration order; any per-entry failure aborts the whole operation. -/
def addBodiesLoop (rp : RealParams K) (m : UrdfModel K) (reg : Registry K) :
    List (String × JointNode K) → Outcome (List (String × BodyRec K))
  | [] => .ok []
  | (name, _node) :: rest =>
    match addBodiesEntry rp m reg name with
    | .crash => .crash
    | .fail => .fail
    | .ok none => addBodiesLoop rp m reg rest
    | .ok (some b) =>
      match addBodiesLoop rp m reg rest with
      | .ok l => .ok ((name, b) :: l)
      | .fail => .fail
      | .crash => .crash

/-- Embedding of `Parser::addBodiesToJoints` (parser.cc:378-508). -/
def addBodiesToJoints (rp : RealParams K) (m : UrdfModel K)
    (reg : Registry K) : Outcome (List (String × BodyRec K)) :=
  addBodiesLoop rp m reg reg

/-- The loop of `Parser::actuatedJoints` (parser.cc:329-357): skip
UNKNOWN, FLOATING and FIXED joints; a qualifying joint without a
registered node throws (`failed to compute actuated joints`); a node
already collected is not added twice. -/
def actuatedJointsLoop (reg : Registry K) :
    List (String × UrdfJoint K) → List (JointNode K) →
    Outcome (List (JointNode K))
  | [], acc => .ok acc
  | (name, j) :: rest, acc =>
    if j.jtype = .UNKNOWN ∨ j.jtype = .FLOATING ∨ j.jtype = .FIXED then
      actuatedJointsLoop reg rest acc
    else
      match List.lookup name reg with
      | none => .crash
      | some node =>
        if node ∈ acc then actuatedJointsLoop reg rest acc
        else actuatedJointsLoop reg rest (acc ++ [node])

/-- Embedding of `Parser::actuatedJoints` (parser.cc:329-357). -/
def actuatedJoints (m : UrdfModel K) (reg : Registry K) :
    Outcome (List (JointNode K)) :=
  actuatedJointsLoop reg m.joints []

/-- The anatomical roles set by `setSpecialJoints` (parser.cc:228-259):
each is set only when its joint is found, otherwise a notice is logged
and the role stays unset. -/
structure Roles (K : Type) where
  waist : Option (JointNode K)
  chest : Option (JointNode K)
  leftWrist : Option (JointNode K)
  rightWrist : Option (JointNode K)
  leftAnkle : Option (JointNode K)
  rightAnkle : Option (JointNode K)
  gaze : Option (JointNode K)

/-- Embedding of `Parser::setSpecialJoints` (parser.cc:228-259). -/
def setSpecialJoints (reg : Registry K) (n : SpecialNames) : Roles K :=
  ⟨findJoint reg n.waist, findJoint reg n.chest, findJoint reg n.leftWrist,
   findJoint reg n.rightWrist, findJoint reg n.leftAnkle,
   findJoint reg n.rightAnkle, findJoint reg n.gaze⟩

/-- Embedding of `Parser::fillGaze` (parser.cc:801-820): the iterator
returned by `jointsMap_.find (gazeJointName_)` is dereferenced WITHOUT
checking it against `end ()`; when the gaze joint name is unresolved or
unregistered this is undefined behavior, a crash.  On success the gaze
direction is (1,0,0) and the origin is the zero vector. -/
def fillGaze (reg : Registry K) (gazeName : String) :
    Outcome (JointNode K × Vec3 K × Vec3 K) :=
  match List.lookup gazeName reg with
  | none => .crash
  | some node => .ok (node, ![1, 0, 0], ![0, 0, 0])

/-- Hand description derived by `computeHandsInformation`
(parser.cc:777-799). -/
structure HandInfo (K : Type) where
  center : Vec3 K
  thumbAxis : Vec3 K
  foreFingerAxis : Vec3 K
  palmNormal : Vec3 K

/-- Embedding of `Parser::computeHandsInformation` (parser.cc:777-799):
the wrist-to-hand transform read off the initial positions gives the
local center (translation) and the three axes (rotation columns). -/
def computeHandsInformation (hand wrist : JointNode K) : HandInfo K :=
  let wrist_M_hand := matInv wrist.pos * hand.pos
  ⟨translOfMat4 wrist_M_hand,
   ![wrist_M_hand 0 0, wrist_M_hand 1 0, wrist_M_hand 2 0],
   ![wrist_M_hand 0 1, wrist_M_hand 1 1, wrist_M_hand 2 1],
   ![wrist_M_hand 0 2, wrist_M_hand 1 2, wrist_M_hand 2 2]⟩

/-- Embedding of `Parser::computeAnklePositionInLocalFrame`
(parser.cc:1126-1142). -/
def computeAnklePositionInLocalFrame (foot ankle : JointNode K) : Vec3 K :=
  translOfMat4 (matInv foot.pos * ankle.pos)

/-- Hands and feet as filled by `fillHandsAndFeet` (parser.cc:822-921):
each is set only when both of its joints are registered, otherwise a
notice is logged and it stays unset. -/
structure HandsFeet (K : Type) where
  leftHand : Option (HandInfo K)
  rightHand : Option (HandInfo K)
  leftFoot : Option (Vec3 K)
  rightFoot : Option (Vec3 K)

/-- Embedding of `Parser::fillHandsAndFeet` (parser.cc:822-921). -/
def fillHandsAndFeet (reg : Registry K) (n : SpecialNames) : HandsFeet K :=
  ⟨match List.lookup n.leftHand reg, List.lookup n.leftWrist reg with
    | some h, some w => some (computeHandsInformation h w)
    | _, _ => none,
   match List.lookup n.rightHand reg, List.lookup n.rightWrist reg with
    | some h, some w => some (computeHandsInformation h w)
    | _, _ => none,
   match List.lookup n.leftFoot reg, List.lookup n.leftAnkle reg with
    | some f, some a => some (computeAnklePositionInLocalFrame f a)
    | _, _ => none,
   match List.lookup n.rightFoot reg, List.lookup n.rightAnkle reg with
    | some f, some a => some (computeAnklePositionInLocalFrame f a)
    | _, _ => none⟩

/-- Embedding of `Parser::setFreeFlyerBounds` (parser.cc:720-742) on the
root node: translations unbounded, the first two rotations bounded to
plus or minus pi over six, yaw unbounded.  Infinite bounds are `none`. -/
def setFreeFlyerBounds (rp : RealParams K) (root : JointNode K) :
    JointNode K :=
  { root with
    boundedCalls := root.boundedCalls ++ [(3, true), (4, true)]
    posBounds := root.posBounds ++
      [(0, none, none), (1, none, none), (2, none, none),
       (3, some (-(rp.piv / 6)), some (rp.piv / 6)),
       (4, some (-(rp.piv / 6)), some (rp.piv / 6)),
       (5, none, none)] }

/-- The assembled output of `parseStream`: the synthesized root, the
registry, the tree edges, the anatomy roles, the per-joint bodies, the
actuated joints, the gaze data and the derived hands and feet. -/
structure RobotEmb (K : Type) where
  root : JointNode K
  registry : Registry K
  edges : List (String × String)
  roles : Roles K
  bodies : List (String × BodyRec K)
  actuated : List (JointNode K)
  gazeJoint : JointNode K
  gazeDir : Vec3 K
  gazeOrigin : Vec3 K
  handsFeet : HandsFeet K

/-- Embedding of `Parser::parseStream` (parser.cc:1202-1286) on an
already decoded model (the external `initString` step is the given
input): reset state, resolve special names, parse joints, check the root
link, connect the tree, set special joints, attach bodies, collect the
actuated joints (an uncaught exception there is a crash), fill gaze
(unchecked dereference), fill hands and feet, and set the free-flyer
bounds.  Every controlled failure resets the robot pointer: `fail`. -/
def parseStream (rp : RealParams K) (m : UrdfModel K) (fuel : Nat) :
    Outcome (RobotEmb K) :=
  let names := findSpecialJoints m
  match parseJoints rp m fuel [] with
  | .fail => .fail
  | .crash => .crash
  | .ok (root, reg) =>
    match m.getRoot with
    | none => .fail
    | some _ =>
      match connectList m reg fuel [root] with
      | .fail => .fail
      | .crash => .crash
      | .ok edges =>
        let roles := setSpecialJoints reg names
        match addBodiesToJoints rp m reg with
        | .fail => .fail
        | .crash => .crash
        | .ok bodies =>
          match actuatedJoints m reg with
          | .fail => .fail
          | .crash => .crash
          | .ok act =>
            match fillGaze reg names.gaze with
            | .fail => .fail
            | .crash => .crash
            | .ok (gnode, gdir, gorig) =>
              let hf := fillHandsAndFeet reg names
              let root2 := setFreeFlyerBounds rp root
              .ok ⟨root2, reg, edges, roles, bodies, act, gnode, gdir,
                gorig, hf⟩

section ClaimTen

/-- Soundness invariant of the `actuatedJoints` loop: on success, every
collected node was already in the accumulator or comes from a
non-skipped joint entry whose registered node it is, and a duplicate-free
accumulator yields a duplicate-free result (the `std::find` guard of
parser.cc:350-353). -/
theorem actuatedJointsLoop_ok_sound [DecidableEq K] (reg : Registry K) :
    ∀ (js : List (String × UrdfJoint K)) (acc l : List (JointNode K)),
    actuatedJointsLoop reg js acc = .ok l →
    (∀ node ∈ l, node ∈ acc ∨ ∃ e ∈ js,
      ¬(e.2.jtype = .UNKNOWN ∨ e.2.jtype = .FLOATING
        ∨ e.2.jtype = .FIXED)
      ∧ List.lookup e.1 reg = some node)
    ∧ (acc.Nodup → l.Nodup) := by
  intro js
  induction js with
  | nil =>
    intro acc l h
    simp only [actuatedJointsLoop] at h
    cases h
    exact ⟨fun node hn => Or.inl hn, fun h2 => h2⟩
  | cons e rest ih =>
    intro acc l h
    simp only [actuatedJointsLoop] at h
    by_cases hskip : e.2.jtype = .UNKNOWN ∨ e.2.jtype = .FLOATING
        ∨ e.2.jtype = .FIXED
    · rw [if_pos hskip] at h
      obtain ⟨h1, h2⟩ := ih acc l h
      refine ⟨fun node hn => ?_, h2⟩
      rcases h1 node hn with hin | ⟨f, hf, hq, hl⟩
      · exact Or.inl hin
      · exact Or.inr ⟨f, List.mem_cons_of_mem _ hf, hq, hl⟩
    · rw [if_neg hskip] at h
      cases hlk : List.lookup e.1 reg with
      | none => rw [hlk] at h; simp at h
      | some node0 =>
        rw [hlk] at h
        simp only at h
        by_cases hmem : node0 ∈ acc
        · rw [if_pos hmem] at h
          obtain ⟨h1, h2⟩ := ih acc l h
          refine ⟨fun node hn => ?_, h2⟩
          rcases h1 node hn with hin | ⟨f, hf, hq, hl⟩
          · exact Or.inl hin
          · exact Or.inr ⟨f, List.mem_cons_of_mem _ hf, hq, hl⟩
        · rw [if_neg hmem] at h
          obtain ⟨h1, h2⟩ := ih (acc ++ [node0]) l h
          constructor
          · intro node hn
            rcases h1 node hn with hin | ⟨f, hf, hq, hl⟩
            · rcases List.mem_append.mp hin with hin2 | hin2
              · exact Or.inl hin2
              · have : node = node0 := by simpa using hin2
                subst this
                exact Or.inr ⟨e, List.mem_cons_self _ _, hskip, hlk⟩
            · exact Or.inr ⟨f, List.mem_cons_of_mem _ hf, hq, hl⟩
          · intro hacc
            apply h2
            rw [List.nodup_append]
            refine ⟨hacc, List.nodup_singleton _, fun a ha hb => ?_⟩
            have haeq : a = node0 := by simpa using hb
            exact hmem (haeq ▸ ha)

/-- The `actuatedJoints` loop throws (crashes) whenever some non-skipped
joint entry has no registered node (parser.cc:345-347). -/
theorem actuatedJointsLoop_missing_crash [DecidableEq K]
    (reg : Registry K) :
    ∀ (js : List (String × UrdfJoint K)) (acc : List (JointNode K)),
    (∃ e ∈ js,
      ¬(e.2.jtype = .UNKNOWN ∨ e.2.jtype = .FLOATING
        ∨ e.2.jtype = .FIXED)
      ∧ List.lookup e.1 reg = none) →
    actuatedJointsLoop reg js acc = .crash := by
  intro js
  induction js with
  | nil => intro acc h; simp at h
  | cons e rest ih =>
    intro acc h
    simp only [actuatedJointsLoop]
    rcases h with ⟨f, hf, hq, hl⟩
    rcases List.mem_cons.mp hf with rfl | hfr
    · rw [if_neg hq, hl]
    · by_cases hskip : e.2.jtype = .UNKNOWN ∨ e.2.jtype = .FLOATING
          ∨ e.2.jtype = .FIXED
      · rw [if_pos hskip]
        exact ih acc ⟨f, hfr, hq, hl⟩
      · rw [if_neg hskip]
        cases hlk : List.lookup e.1 reg with
        | none => simp only
        | some node0 =>
          simp only
          by_cases hmem : node0 ∈ acc
          · rw [if_pos hmem]
            exact ih acc ⟨f, hfr, hq, hl⟩
          · rw [if_neg hmem]
            exact ih (acc ++ [node0]) ⟨f, hfr, hq, hl⟩

/-- CLAIM C10.  For a joint map without PLANAR entries (any successfully
parsed model), a successful `actuatedJoints` returns a list in which
every node stems from a joint of kind REVOLUTE, CONTINUOUS or PRISMATIC
(UNKNOWN, FLOATING and FIXED entries are skipped) and no node occurs
twice; and whenever some qualifying joint has no registered node, the
operation raises the `failed to compute actuated joints` error instead
of returning a list. -/
theorem C10_actuated_joints_kinds_nodup_error [DecidableEq K]
    (m : UrdfModel K) (reg : Registry K)
    (hnp : ∀ e ∈ m.joints, e.2.jtype ≠ UrdfJointType.PLANAR) :
    (∀ l, actuatedJoints m reg = .ok l →
      (∀ node ∈ l, ∃ e ∈ m.joints,
        (e.2.jtype = UrdfJointType.REVOLUTE
          ∨ e.2.jtype = UrdfJointType.CONTINUOUS
          ∨ e.2.jtype = UrdfJointType.PRISMATIC)
        ∧ List.lookup e.1 reg = some node)
      ∧ l.Nodup)
    ∧ ((∃ e ∈ m.joints,
        (e.2.jtype = UrdfJointType.REVOLUTE
          ∨ e.2.jtype = UrdfJointType.CONTINUOUS
          ∨ e.2.jtype = UrdfJointType.PRISMATIC)
        ∧ List.lookup e.1 reg = none) →
      actuatedJoints m reg = .crash) := by
  constructor
  · intro l h
    obtain ⟨h1, h2⟩ := actuatedJointsLoop_ok_sound reg m.joints [] l h
    constructor
    · intro node hn
      rcases h1 node hn with hin | ⟨f, hf, hq, hl⟩
      · simp at hin
      · refine ⟨f, hf, ?_, hl⟩
        have hfp := hnp f hf
        cases htype : f.2.jtype <;> simp_all
    · exact h2 List.nodup_nil
  · intro ⟨f, hf, hq, hl⟩
    apply actuatedJointsLoop_missing_crash
    refine ⟨f, hf, ?_, hl⟩
    rcases hq with h | h | h <;> simp [h]

/-- A one-revolute-joint model for the C10 witness. -/
def actModel : UrdfModel ℚ :=
  ⟨[("j1", ⟨.REVOLUTE, ![0, 0, 1], idPose, "base_link", "link1", none⟩)],
   [("base_link", ⟨none, ["j1"], none, none, none⟩),
    ("link1", ⟨some "j1", [], none, none, none⟩)]⟩

/-- A registered rotation node for "j1". -/
def nodeJ1 : JointNode ℚ := ⟨"j1", .rotation, 1, [], [], [], []⟩

/-- Witness for C10: on a concrete model, the success case produces the
qualifying, duplicate-free list, and an empty registry raises the
error. -/
theorem C10_actuated_joints_witness :
    ((∀ node ∈ [nodeJ1], ∃ e ∈ actModel.joints,
        (e.2.jtype = UrdfJointType.REVOLUTE
          ∨ e.2.jtype = UrdfJointType.CONTINUOUS
          ∨ e.2.jtype = UrdfJointType.PRISMATIC)
        ∧ List.lookup e.1 ([("j1", nodeJ1)] : Registry ℚ) = some node)
      ∧ [nodeJ1].Nodup)
    ∧ actuatedJoints actModel ([] : Registry ℚ) = .crash := by
  have hnp : ∀ e ∈ actModel.joints, e.2.jtype ≠ UrdfJointType.PLANAR := by
    intro e he
    simp only [actModel, List.mem_singleton] at he
    subst he
    simp
  constructor
  · exact (C10_actuated_joints_kinds_nodup_error actModel
      [("j1", nodeJ1)] hnp).1 [nodeJ1]
      (by simp [actuatedJoints, actuatedJointsLoop, actModel, List.lookup,
        nodeJ1])
  · exact (C10_actuated_joints_kinds_nodup_error actModel [] hnp).2
      ⟨("j1", ⟨.REVOLUTE, ![0, 0, 1], idPose, "base_link", "link1", none⟩),
        by simp [actModel], by simp, by simp⟩

end ClaimTen

section ClaimThree

/-- A PLANAR (or UNKNOWN) entry anywhere in the joint list prevents the
`parseJoints` loop from succeeding: the entry either returns the failure
of the PLANAR branch or an earlier entry already crashed or failed. -/
theorem parseJointsLoop_planar_not_ok (rp : RealParams K) (m : UrdfModel K)
    (fuel : Nat) :
    ∀ (js : List (String × UrdfJoint K)) (reg : Registry K)
      (name : String) (j : UrdfJoint K),
    (name, j) ∈ js → j.jtype = UrdfJointType.PLANAR →
    ∀ r, parseJointsLoop rp m fuel js reg ≠ .ok r := by
  intro js
  induction js with
  | nil => intro reg name j hmem; simp at hmem
  | cons e rest ih =>
    intro reg name j hmem hpl r hr
    simp only [parseJointsLoop] at hr
    rcases List.mem_cons.mp hmem with heq | hmemr
    · rw [← heq] at hr
      cases hres : getPoseInReferenceFrame m fuel "base_footprint_joint" name
      · rw [hres] at hr; simp at hr
      · rw [hres] at hr
        simp only at hr
        cases hj : m.getJoint name
        · rw [hj] at hr; simp at hr
        · rw [hj] at hr
          simp only [hpl] at hr
          simp at hr
    · obtain ⟨n0, j0⟩ := e
      cases hres : getPoseInReferenceFrame m fuel "base_footprint_joint" n0
      · rw [hres] at hr; simp at hr
      · rw [hres] at hr
        simp only at hr
        cases hj : m.getJoint n0
        · rw [hj] at hr; simp at hr
        · rw [hj] at hr
          simp only at hr
          cases htype : j0.jtype <;> rw [htype] at hr <;>
            first
              | exact ih _ name j hmemr hpl r hr
              | simp at hr

/-- A PLANAR entry makes `parseJoints` itself never succeed. -/
theorem parseJoints_planar_not_ok (rp : RealParams K) (m : UrdfModel K)
    (fuel : Nat) (name : String) (j : UrdfJoint K)
    (hmem : (name, j) ∈ m.joints) (hpl : j.jtype = UrdfJointType.PLANAR) :
    ∀ r, parseJoints rp m fuel [] ≠ .ok r := by
  intro r hr
  simp only [parseJoints] at hr
  cases hc : createFreeflyerJoint "base_joint" (1 : Mat4 K) [] with
  | mk root reg1 =>
    rw [hc] at hr
    cases root with
    | none => simp at hr
    | some rootJ =>
      simp only at hr
      cases hp : parseJointsLoop rp m fuel m.joints reg1 with
      | ok reg2 =>
        exact parseJointsLoop_planar_not_ok rp m fuel m.joints reg1
          name j hmem hpl reg2 hp
      | fail => rw [hp] at hr; simp at hr
      | crash => rw [hp] at hr; simp at hr

/-- The revolute joint named "base_joint" of the duplicate-name model. -/
def jdup : UrdfJoint ℚ :=
  ⟨.REVOLUTE, ![0, 0, 1], idPose, "base_link", "link1", none⟩

/-- A model containing a joint whose name collides with the reserved
root name "base_joint": the only duplicate expressible in the decoded
(uniquely keyed) joint map. -/
def dupModel : UrdfModel ℚ :=
  ⟨[("base_joint", jdup)],
   [("base_link", ⟨none, ["base_joint"], none, none, none⟩),
    ("link1", ⟨some "base_joint", [], none, none, none⟩)]⟩

/-- The synthesized root node as created by `createFreeflyerJoint
"base_joint"` on an empty registry. -/
def rootNodeD : JointNode ℚ :=
  ⟨"base_joint", .freeflyer, 1,
   [(0, false), (1, false), (2, false), (3, false), (4, false), (5, false)],
   [], [], []⟩

/-- The registry after `parseJoints` on the duplicate-name model: only
the synthesized root survives. -/
def regD : Registry ℚ := [("base_joint", rootNodeD)]

/-- On the duplicate-name model, `parseJoints` SUCCEEDS for any positive
fuel: the duplicate rejection inside `createRotationJoint` is ignored by
the loop. -/
theorem dup_parseJoints_eval (fuel : Nat) :
    parseJoints rpQ dupModel (fuel + 1) [] = .ok (rootNodeD, regD) := by
  simp [parseJoints, parseJointsLoop, getPoseInReferenceFrame,
    createFreeflyerJoint, createRotationJoint, regInsert, dupModel, jdup,
    rootNodeD, regD, UrdfModel.getJoint, UrdfModel.getLink, List.lookup,
    List.range_succ]

/-- With no fuel, the pose resolution of the first entry crashes. -/
theorem dup_parseJoints_zero :
    parseJoints rpQ dupModel 0 [] = .crash := by
  simp [parseJoints, parseJointsLoop, getPoseInReferenceFrame,
    createFreeflyerJoint, regInsert, dupModel, jdup, List.lookup]

/-- One-step unfolding of the tree-assembly worklist. -/
theorem connectList_cons (m : UrdfModel K) (reg : Registry K) (fuel : Nat)
    (j : JointNode K) (rest : List (JointNode K)) :
    connectList m reg (fuel + 1) (j :: rest)
      = match getChildrenJointEmb m reg fuel j.name with
        | .crash => .crash
        | .fail => .fail
        | .ok (_flag, children) =>
          match childNodes reg children with
          | none => .crash
          | some nodes =>
            match connectList m reg fuel (nodes ++ rest) with
            | .ok edges => .ok (children.map (fun c => (j.name, c)) ++ edges)
            | .fail => .fail
            | .crash => .crash := rfl

/-- Tree assembly on the duplicate-name model never terminates: the
synthesized root keeps rediscovering itself as its own child (the model
joint named "base_joint" resolves, through the registry, to the root
node), so every finite fuel crashes. -/
theorem dup_connect_crash :
    ∀ fuel, connectList dupModel regD fuel [rootNodeD] = .crash := by
  intro fuel
  induction fuel with
  | zero => simp [connectList]
  | succ n ih =>
    rw [connectList_cons, show rootNodeD.name = "base_joint" from rfl]
    cases n with
    | zero =>
      rw [show getChildrenJointEmb dupModel regD 0 "base_joint"
        = Outcome.crash from by
          simp [getChildrenJointEmb, gcjList, dupModel, jdup, regD,
            UrdfModel.getJoint, UrdfModel.getLink, List.lookup]]
    | succ p =>
      have hg : getChildrenJointEmb dupModel regD (p + 1) "base_joint"
          = .ok (true, ["base_joint"]) := by
        simp [getChildrenJointEmb, gcjList, dupModel, jdup, regD,
          rootNodeD, UrdfModel.getJoint, UrdfModel.getLink, List.lookup]
      have hcn : childNodes regD ["base_joint"] = some [rootNodeD] := by
        simp [childNodes, regD, List.lookup]
      simp only [hg, hcn, List.append_nil]
      rw [ih]

/-- CLAIM C3, counterexample for the duplicate-name half: on the
duplicate-name model, `parseJoints` (the stage the claim designates as
the abort point) does not abort; it reports success, with the registry
still holding the first-registered root node, even though the rotation
factory did reject the duplicate. -/
theorem C3_duplicate_counterexample :
    parseJoints rpQ dupModel 10 [] = .ok (rootNodeD, regD)
    ∧ (createRotationJoint "base_joint" (1 : Mat4 ℚ) none regD).1 = none := by
  constructor
  · exact dup_parseJoints_eval 9
  · simp [createRotationJoint, regD, List.lookup]

/-- CLAIM C3, amended.  A PLANAR joint aborts the whole build: the
embedded `parseStream` never returns a robot on any model containing
one.  A duplicate joint name, however, does not abort joint parsing: the
factory rejection is ignored, and on the only duplicate expressible in
the decoded map (a model joint named "base_joint"), the build then never
terminates during tree assembly (every fuel crashes) instead of
returning the claimed structural failure. -/
theorem C3_planar_aborts_duplicate_does_not (rp : RealParams K)
    (m : UrdfModel K) (fuel fuel2 : Nat) (name : String) (j : UrdfJoint K)
    (hmem : (name, j) ∈ m.joints)
    (hpl : j.jtype = UrdfJointType.PLANAR) :
    (parseStream rp m fuel).isOk = false
    ∧ (parseStream rpQ dupModel fuel2).isOk = false := by
  constructor
  · simp only [parseStream]
    cases hp : parseJoints rp m fuel [] with
    | ok pr =>
      exact absurd hp (parseJoints_planar_not_ok rp m fuel name j
        hmem hpl pr)
    | fail => simp [Outcome.isOk]
    | crash => simp [Outcome.isOk]
  · simp only [parseStream]
    cases fuel2 with
    | zero =>
      rw [dup_parseJoints_zero]
      simp [Outcome.isOk]
    | succ f =>
      rw [dup_parseJoints_eval f]
      simp only
      rw [show (dupModel.getRoot)
        = some ("base_link", ⟨none, ["base_joint"], none, none, none⟩)
        from by simp [UrdfModel.getRoot, dupModel]]
      simp only
      rw [dup_connect_crash (f + 1)]
      simp [Outcome.isOk]

/-- A planar-joint model for the C3 witness. -/
def planarModel : UrdfModel ℚ :=
  ⟨[("jp", ⟨.PLANAR, ![0, 0, 1], idPose, "base_link", "link1", none⟩)],
   [("base_link", ⟨none, ["jp"], none, none, none⟩),
    ("link1", ⟨some "jp", [], none, none, none⟩)]⟩

/-- Witness for the amended C3 at the concrete planar and duplicate-name
models. -/
theorem C3_planar_aborts_witness :
    (parseStream rpQ planarModel 10).isOk = false
    ∧ (parseStream rpQ dupModel 10).isOk = false :=
  C3_planar_aborts_duplicate_does_not rpQ planarModel 10 10 "jp"
    ⟨.PLANAR, ![0, 0, 1], idPose, "base_link", "link1", none⟩
    (by simp [planarModel]) rfl

end ClaimThree

section ClaimFour

/-- A link whose visual geometry is mesh "a.obj" and whose collision
geometry is mesh "b.obj". -/
def meshLink : UrdfLink ℚ :=
  ⟨some "j1", [], none,
   some ⟨idPose, .mesh "a.obj" 1 1 1⟩,
   some ⟨idPose, .mesh "b.obj" 1 1 1⟩⟩

/-- A model with two sibling fixed joints under the root link; the first
child link carries the mismatched meshes, the second is healthy. -/
def m4Model : UrdfModel ℚ :=
  ⟨[("j1", ⟨.FIXED, ![0, 0, 1], idPose, "base_link", "link1", none⟩),
    ("j2", ⟨.FIXED, ![0, 0, 1], idPose, "base_link", "link2", none⟩)],
   [("base_link", ⟨none, ["j1", "j2"], none, none, none⟩),
    ("link1", meshLink),
    ("link2", ⟨some "j2", [], none, none, none⟩)]⟩

/-- CLAIM C4, counterexample.  On the two-sibling model whose first link
carries visual mesh "a.obj" and collision mesh "b.obj", the whole build
aborts: `parseStream` returns the structural failure (no usable output),
rather than failing for that link only and continuing with the
sibling. -/
theorem C4_mesh_mismatch_counterexample :
    parseStream rpQ m4Model 8 = Outcome.fail := by
  simp [parseStream, parseJoints, parseJointsLoop, getPoseInReferenceFrame,
    createFreeflyerJoint, createAnchorJoint, regInsert, strLt, strLtGo,
    m4Model, meshLink, UrdfModel.getJoint, UrdfModel.getLink,
    UrdfModel.getRoot, List.lookup, List.range_succ, connectList,
    getChildrenJointEmb, gcjList, childNodes, addBodiesToJoints,
    addBodiesLoop, addBodiesEntry, addSolidComponentToJoint]

/-- CLAIM C4, amended.  A link with mesh visual and mesh collision
geometry of different filenames makes geometry attachment fail
(`addSolidComponentToJoint` returns false), and this failure aborts the
whole build: on the concrete two-sibling model, `parseStream` returns no
usable output and the sibling link is never reached. -/
theorem C4_mesh_mismatch_fails_and_aborts (rp : RealParams K)
    (m : UrdfModel K) (reg : Registry K) (linkName : String)
    (link : UrdfLink K) (v c : UrdfVisual K) (vf : String)
    (vsx vsy vsz : K) (cf : String) (csx csy csz : K)
    (hv : link.visual = some v) (hc : link.collision = some c)
    (hvg : v.geometry = .mesh vf vsx vsy vsz)
    (hcg : c.geometry = .mesh cf csx csy csz)
    (hne : vf ≠ cf) :
    addSolidComponentToJoint rp m reg linkName link = Outcome.fail
    ∧ parseStream rpQ m4Model 8 = Outcome.fail := by
  refine ⟨?_, C4_mesh_mismatch_counterexample⟩
  simp only [addSolidComponentToJoint, hv, hc, hvg, hcg]
  simp [hne]

/-- Witness for the amended C4 at the concrete mismatched link. -/
theorem C4_mesh_mismatch_witness :
    addSolidComponentToJoint rpQ m4Model ([] : Registry ℚ) "link1" meshLink
      = Outcome.fail
    ∧ parseStream rpQ m4Model 8 = Outcome.fail :=
  C4_mesh_mismatch_fails_and_aborts rpQ m4Model [] "link1" meshLink
    ⟨idPose, .mesh "a.obj" 1 1 1⟩ ⟨idPose, .mesh "b.obj" 1 1 1⟩
    "a.obj" 1 1 1 "b.obj" 1 1 1
    (by simp [meshLink]) (by simp [meshLink]) rfl rfl (by simp)

end ClaimFour

section ClaimEight

/-- A minimal model with a single root link and no joints; in particular
it has no link named "gaze" (nor any other anatomical link). -/
def nogazeModel : UrdfModel ℚ :=
  ⟨[], [("base_link", ⟨none, [], none, none, none⟩)]⟩

/-- CLAIM C8.  On a model with no gaze link, every stage up to and
including `setSpecialJoints` degrades gracefully (the unresolved gaze
name stays empty and the role stays unset with a notice, while the
hard-coded waist is found), but `fillGaze` dereferences
`jointsMap_.find (gazeJointName_)` without the end check and the whole
build crashes instead of completing with the role unset. -/
theorem C8_missing_gaze_crashes_build :
    parseStream rpQ nogazeModel 5 = Outcome.crash
    ∧ (findSpecialJoints nogazeModel).gaze = ""
    ∧ fillGaze ([("base_joint", rootNodeD)] : Registry ℚ) ""
      = Outcome.crash
    ∧ (setSpecialJoints ([("base_joint", rootNodeD)] : Registry ℚ)
        (findSpecialJoints nogazeModel)).gaze = none
    ∧ (setSpecialJoints ([("base_joint", rootNodeD)] : Registry ℚ)
        (findSpecialJoints nogazeModel)).waist = some rootNodeD := by
  refine ⟨?_, ?_, ?_, ?_, ?_⟩
  · simp [parseStream, parseJoints, parseJointsLoop, createFreeflyerJoint,
      regInsert, nogazeModel, UrdfModel.getJoint, UrdfModel.getLink,
      UrdfModel.getRoot, List.lookup, connectList, getChildrenJointEmb,
      gcjList, childNodes, addBodiesToJoints, addBodiesLoop,
      addBodiesEntry, actuatedJoints, actuatedJointsLoop, fillGaze,
      findSpecialJoints, findSpecialJoint, List.range_succ]
  · simp [findSpecialJoints, findSpecialJoint, nogazeModel,
      UrdfModel.getLink, List.lookup]
  · simp [fillGaze, List.lookup]
  · simp [setSpecialJoints, findSpecialJoints, findSpecialJoint,
      nogazeModel, UrdfModel.getLink, findJoint, List.lookup]
  · simp [setSpecialJoints, findSpecialJoints, findSpecialJoint,
      nogazeModel, UrdfModel.getLink, findJoint, List.lookup]

end ClaimEight

section ClaimFiveSupport

/-- Every name classified into the result of the child-discovery walk is
either carried over from the accumulator or passes the
`jointsMap_.count (...) > 0` guard, i.e. is registered. -/
theorem gcjList_discovered_registered (m : UrdfModel K) (reg : Registry K) :
    ∀ (fuel : Nat) (work acc : List String) (flag : Bool) (l : List String),
    gcjList m reg fuel work acc = .ok (flag, l) →
    ∀ c ∈ l, c ∈ acc ∨ (List.lookup c reg).isSome := by
  intro fuel
  induction fuel with
  | zero =>
    intro work acc flag l h c hc
    cases work with
    | nil =>
      simp only [gcjList] at h
      cases h
      exact Or.inl hc
    | cons c0 rest => simp [gcjList] at h
  | succ n ih =>
    intro work acc flag l h c hc
    cases work with
    | nil =>
      simp only [gcjList] at h
      cases h
      exact Or.inl hc
    | cons c0 rest =>
      simp only [gcjList] at h
      by_cases hreg : (List.lookup c0 reg).isSome
      · rw [if_pos hreg] at h
        rcases ih rest (acc ++ [c0]) flag l h c hc with hin | hr
        · rcases List.mem_append.mp hin with hin2 | hin2
          · exact Or.inl hin2
          · have : c = c0 := by simpa using hin2
            exact Or.inr (this ▸ hreg)
        · exact Or.inr hr
      · rw [if_neg hreg] at h
        by_cases hmj : (m.getJoint c0).isNone ∧ c0 ≠ "base_joint"
        · rw [if_pos hmj] at h
          cases h
          exact Or.inl hc
        · rw [if_neg hmj] at h
          cases hcl : (if c0 = "base_joint" then m.getLink "base_link"
            else match m.getJoint c0 with
              | some jt => m.getLink jt.child_link_name
              | none => none) with
          | none => rw [hcl] at h; simp at h
          | some cl =>
            rw [hcl] at h
            exact ih (cl.child_joints ++ rest) acc flag l h c hc

/-- Every child name discovered by `getChildrenJoint` has a registered
node: the antecedent of the `connectJoints` failure guard can never hold,
which makes that guard dead code (and its end-iterator dereference
unreachable through this path). -/
theorem discovered_children_registered (m : UrdfModel K) (reg : Registry K)
    (fuel : Nat) (jointName : String) (flag : Bool) (l : List String)
    (h : getChildrenJointEmb m reg fuel jointName = .ok (flag, l)) :
    ∀ c ∈ l, (List.lookup c reg).isSome := by
  intro c hc
  simp only [getChildrenJointEmb] at h
  by_cases hmj : (m.getJoint jointName).isNone ∧ jointName ≠ "base_joint"
  · rw [if_pos hmj] at h
    cases h
    simp at hc
  · rw [if_neg hmj] at h
    cases hcl : (if jointName = "base_joint" then m.getLink "base_link"
      else match m.getJoint jointName with
        | some jt => m.getLink jt.child_link_name
        | none => none) with
    | none => rw [hcl] at h; simp at h
    | some cl =>
      rw [hcl] at h
      rcases gcjList_discovered_registered m reg fuel cl.child_joints []
        flag l h c hc with hin | hr
      · simp at hin
      · exact hr

end ClaimFiveSupport

end HppModelUrdf
